import Mathlib

/-!
Verification of the yubihsm-go secure-channel core against its specification.

Bytes are modelled as natural numbers; wherever Go performs fixed-width
integer arithmetic (uint8/uint16/uint32) the model takes the value modulo
the corresponding power of two.  Fallible Go code is modelled with the
three-valued result type PResult: ok carries the Go return value, err a Go
error, and crash a Go runtime panic (index out of range, slice bounds out
of range, nil-pointer dereference).  The AES-128 block cipher, AES-CMAC and
CBC mode are abstracted as parameters (the Crypto structure): every claim
settled here depends only on control flow and byte-level framing, never on
the concrete AES permutation.
-/

namespace YubiHsmGo

/-! Three-valued result of running a piece of Go code: a normal return
value, a returned error, or a runtime panic. -/

inductive PResult (α : Type) where
  | ok (val : α)
  | err (msg : String)
  | crash (msg : String)
deriving DecidableEq

def PResult.isOk {α : Type} : PResult α → Bool
  | .ok _ => true
  | _ => false

/-! Big-endian byte helpers (encoding/binary with binary.BigEndian). -/

def u16be (hi lo : Nat) : Nat := hi * 256 + lo

def u16beBytes (n : Nat) : List Nat := [n / 256 % 256, n % 256]

def u32beBytes (n : Nat) : List Nat :=
  [n / 16777216 % 256, n / 65536 % 256, n / 256 % 256, n % 256]

/-! Constants from commands/types.go and securechannel/channel.go. -/

def ResponseCommandOffset : Nat := 0x80
def ErrorResponseCode : Nat := 0xff

def CommandTypeEcho : Nat := 0x01
def CommandTypeCreateSession : Nat := 0x03
def CommandTypeAuthenticateSession : Nat := 0x04
def CommandTypeSessionMessage : Nat := 0x05
def CommandTypeDeviceInfo : Nat := 0x06
def CommandTypeCloseSession : Nat := 0x40
def CommandTypePutOpaque : Nat := 0x42
def CommandTypeGetOpaque : Nat := 0x43
def CommandTypePutAuthKey : Nat := 0x44
def CommandTypePutAsymmetric : Nat := 0x45
def CommandTypeGenerateAsymmetricKey : Nat := 0x46
def CommandTypeSignDataPkcs1 : Nat := 0x47
def CommandTypeListObjects : Nat := 0x48
def CommandTypeExportWrapped : Nat := 0x4a
def CommandTypeImportWrapped : Nat := 0x4b
def CommandTypePutWrapKey : Nat := 0x4c
def CommandTypeGetObjectInfo : Nat := 0x4e
def CommandTypeGetPseudoRandom : Nat := 0x51
def CommandTypeGetPubKey : Nat := 0x54
def CommandTypeSignDataEcdsa : Nat := 0x56
def CommandTypeDeriveEcdh : Nat := 0x57
def CommandTypeDeleteObject : Nat := 0x58
def CommandTypeAttestAsymmetric : Nat := 0x64
def CommandTypeSignDataEddsa : Nat := 0x6a

/-- Constant referenced by commands/response.go but not present in the
types.go snapshot under src; value 0x5c modelled from the YubiHSM2 protocol
(Change Authentication Key).  No claim depends on this value. -/
def CommandTypeChangeAuthenticationKey : Nat := 0x5c

def MACLength : Nat := 8
def ChallengeLength : Nat := 8
def CryptogramLength : Nat := 8
def KeyLength : Nat := 16

def DerivationConstantEncKey : Nat := 0x04
def DerivationConstantMACKey : Nat := 0x06
def DerivationConstantRMACKey : Nat := 0x07
def DerivationConstantDeviceCryptogram : Nat := 0x00
def DerivationConstantHostCryptogram : Nat := 0x01

def SecurityLevelUnauthenticated : Nat := 0
def SecurityLevelAuthenticated : Nat := 1

def MessageTypeCommand : Nat := 0
def MessageTypeResponse : Nat := 1

def MaxMessagesPerSession : Nat := 10000

/-! SCP03 padding, from securechannel (pad/unpad in the securechannel
package; aes.BlockSize = 16). -/

def blockSize : Nat := 16

/-- Translation of func pad(src []byte) []byte.  The Go guard is
"aes.BlockSize-len(src)%aes.BlockSize == 0", i.e. 16 - (len mod 16) == 0,
kept verbatim here (including its unreachability, proved below). -/
def pad (src : List Nat) : List Nat :=
  if blockSize - src.length % blockSize = 0 then
    src
  else
    let padding := blockSize - src.length % blockSize - 1
    src ++ 0x80 :: List.replicate padding 0x00

/-- The backward scan of func unpad, run over the reversed input: a 0x00
byte is counted and the scan continues; a 0x80 byte is counted and the scan
stops; any other byte is skipped (not counted) and the scan continues,
exactly as the Go loop body does. -/
def padScan : List Nat → Nat
  | [] => 0
  | b :: rest =>
    if b = 0x00 then 1 + padScan rest
    else if b = 0x80 then 1
    else padScan rest

/-- Translation of func unpad(src []byte) []byte.  Go reads
src[len(src)-1] first, which panics on an empty slice: that case is the
none result.  The head of the reversed list is that last byte. -/
def unpad (src : List Nat) : Option (List Nat) :=
  if src.length = 0 then none
  else if src.reverse.headI ≠ 0x00 ∧ src.reverse.headI ≠ 0x80 then some src
  else some (src.take (src.length - padScan src.reverse))

/-! Typed responses, from commands/response.go.  The Go value nil returned
together with a nil error (AuthenticateSession, CloseSession, DeleteObject)
is the nilResp constructor. -/

inductive Response where
  | nilResp
  | deviceInfo (majorVersion minorVersion buildVersion serialNumber : Nat)
  | createSession (sessionID : Nat) (cardChallenge cardCryptogram : List Nat)
  | sessionMessage (sessionID : Nat) (encryptedData mac : List Nat)
  | createAsymmetricKey (keyID : Nat)
  | putAsymmetricKey (keyID : Nat)
  | objectInfo (capabilities objectID objLength domains typ algorithm sequenceNo origin : Nat)
      (label : List Nat) (delegated : Nat)
  | listObjects (objects : List (Nat × Nat × Nat))
  | signDataEddsa (signature : List Nat)
  | signDataPkcs1 (signature : List Nat)
  | signDataEcdsa (signature : List Nat)
  | getPubKey (algorithm : Nat) (keyData : List Nat)
  | echo (data : List Nat)
  | deriveEcdh (xCoordinate : List Nat)
  | changeAuthenticationKey (objectID : Nat)
  | pseudoRandom (data : List Nat)
  | putWrapkey (objectID : Nat)
  | putAuthkey (objectID : Nat)
  | putOpaque (objectID : Nat)
  | getOpaque (data : List Nat)
  | attestationCert (cert : List Nat)
  | exportWrapped (nonce data : List Nat)
  | importWrapped (objectType objectID : Nat)
deriving DecidableEq

/-- Message table of the Error method on commands.Error.  The codes beyond
0x0c come from constants absent from the types.go snapshot under src; they
fall into the Unknown default here, which no claim depends on. -/
def cardErrorMessage (code : Nat) : String :=
  "card responded with error: " ++
    (if code = 0x00 then "OK"
     else if code = 0x01 then "Invalid command"
     else if code = 0x02 then "Invalid data"
     else if code = 0x03 then "Invalid session"
     else if code = 0x04 then "Auth fail"
     else if code = 0x05 then "Session full"
     else if code = 0x06 then "Session failed"
     else if code = 0x07 then "Storage failed"
     else if code = 0x08 then "Wrong length"
     else if code = 0x09 then "Invalid permission"
     else if code = 0x0a then "Log full"
     else if code = 0x0b then "Object not found"
     else if code = 0x0c then "Invalid ID"
     else if code = 0xff then "Command unexecuted"
     else "Unknown")

/-- parseErrorResponse: the parsed commands.Error value is returned as the
error result of ParseResponse, carrying its formatted message. -/
def parseErrorResponse (payload : List Nat) : PResult Response :=
  if payload.length ≠ 1 then .err "invalid response payload length"
  else .err (cardErrorMessage payload.headI)

/-- parseDeviceInfoResponse reads payload[0..3] and payload[3:7] with no
length guard: any payload shorter than 7 bytes makes the Go slice
expression panic. -/
def parseDeviceInfoResponse (payload : List Nat) : PResult Response :=
  match payload with
  | p0 :: p1 :: p2 :: p3 :: p4 :: p5 :: p6 :: _ =>
    .ok (.deviceInfo p0 p1 p2 (((p3 * 256 + p4) * 256 + p5) * 256 + p6))
  | _ => .crash "slice bounds out of range"

def parseCreateSessionResponse (payload : List Nat) : PResult Response :=
  if payload.length ≠ 17 then .err "invalid response payload length"
  else .ok (.createSession payload.headI ((payload.drop 1).take 8) (payload.drop 9))

/-- parseSessionMessage indexes payload[0] and slices payload[1:len-8] and
payload[len-8:] with no length guard: an empty payload panics at the index,
and payloads of length 1..8 panic at the slice (the Go int len-8 is below
the low bound 1). -/
def parseSessionMessage (payload : List Nat) : PResult Response :=
  if payload.length < 1 then .crash "index out of range"
  else if payload.length < 9 then .crash "slice bounds out of range"
  else .ok (.sessionMessage payload.headI
      ((payload.drop 1).take (payload.length - 9))
      (payload.drop (payload.length - 8)))

/-- parseCreateAsymmetricKeyResponse asserts a 2-byte payload and then
reads payload[1:3].  Index 2 is beyond the declared payload: with an
exactly-sized backing array the Go slice expression panics, and with spare
capacity it silently reads the byte after the payload.  The model reports
the out-of-bounds read as a crash. -/
def parseCreateAsymmetricKeyResponse (payload : List Nat) : PResult Response :=
  if payload.length ≠ 2 then .err "invalid response payload length"
  else .crash "slice bounds out of range"

def parseSignDataEddsaResponse (payload : List Nat) : PResult Response :=
  .ok (.signDataEddsa payload)

def parseSignDataPkcs1Response (payload : List Nat) : PResult Response :=
  if payload.length < 1 then .err "invalid response payload length"
  else .ok (.signDataPkcs1 payload)

def parseSignDataEcdsaResponse (payload : List Nat) : PResult Response :=
  .ok (.signDataEcdsa payload)

def parsePutAsymmetricKeyResponse (payload : List Nat) : PResult Response :=
  if payload.length ≠ 2 then .err "invalid response payload length"
  else .ok (.putAsymmetricKey (u16be payload.headI (payload.drop 1).headI))

/-- binary.Read of a []Object slice: consecutive 4-byte records
(id:u16be, type:u8, sequence:u8). -/
def readObjectRecords : List Nat → List (Nat × Nat × Nat)
  | a :: b :: c :: d :: rest => (u16be a b, c, d) :: readObjectRecords rest
  | _ => []

def parseListObjectsResponse (payload : List Nat) : PResult Response :=
  if payload.length % 4 ≠ 0 then .err "invalid response payload length"
  else .ok (.listObjects (readObjectRecords payload))

/-- Big-endian value of n bytes of l starting at offset, as binary.Read
decodes fixed-width fields. -/
def beBytesAt (l : List Nat) (off n : Nat) : Nat :=
  (List.range n).foldl (fun acc i => acc * 256 + l.getD (off + i) 0) 0

/-- parseGetObjectInfoResponse: binary.Read into the 66-byte
ObjectInfoResponse struct; a shorter payload makes binary.Read return an
unexpected-EOF error, surfaced by the Go code. -/
def parseGetObjectInfoResponse (payload : List Nat) : PResult Response :=
  if payload.length < 66 then .err "unexpected EOF"
  else .ok (.objectInfo (beBytesAt payload 0 8) (beBytesAt payload 8 2)
      (beBytesAt payload 10 2) (beBytesAt payload 12 2) (payload.getD 14 0)
      (payload.getD 15 0) (payload.getD 16 0) (payload.getD 17 0)
      ((payload.drop 18).take 40) (beBytesAt payload 58 8))

def parseGetPubKeyResponse (payload : List Nat) : PResult Response :=
  if payload.length < 1 then .err "invalid response payload length"
  else .ok (.getPubKey payload.headI (payload.drop 1))

def parseEchoResponse (payload : List Nat) : PResult Response :=
  .ok (.echo payload)

def parseDeriveEcdhResponse (payload : List Nat) : PResult Response :=
  .ok (.deriveEcdh payload)

def parseChangeAuthenticationKeyResponse (payload : List Nat) : PResult Response :=
  if payload.length ≠ 2 then .err "invalid response payload length"
  else .ok (.changeAuthenticationKey (u16be payload.headI (payload.drop 1).headI))

def parseGetPseudoRandomResponse (payload : List Nat) : PResult Response :=
  .ok (.pseudoRandom payload)

def parsePutWrapkeyResponse (payload : List Nat) : PResult Response :=
  if payload.length ≠ 2 then .err "invalid response payload length"
  else .ok (.putWrapkey (u16be payload.headI (payload.drop 1).headI))

def parsePutAuthkeyResponse (payload : List Nat) : PResult Response :=
  if payload.length ≠ 2 then .err "invalid response payload length"
  else .ok (.putAuthkey (u16be payload.headI (payload.drop 1).headI))

def parsePutOpaqueResponse (payload : List Nat) : PResult Response :=
  if payload.length ≠ 2 then .err "invalid response payload length"
  else .ok (.putOpaque (u16be payload.headI (payload.drop 1).headI))

def parseGetOpaqueResponse (payload : List Nat) : PResult Response :=
  if payload.length < 1 then .err "invalid response payload length"
  else .ok (.getOpaque payload)

def parseAttestationCertResponse (payload : List Nat) : PResult Response :=
  if payload.length < 1 then .err "invalid response payload length"
  else .ok (.attestationCert payload)

def parseExportWrappedResponse (payload : List Nat) : PResult Response :=
  if payload.length < 13 then .err "invalid response payload length"
  else .ok (.exportWrapped (payload.take 13) (payload.drop 13))

def parseImportWrappedResponse (payload : List Nat) : PResult Response :=
  if payload.length ≠ 3 then .err "invalid response payload length"
  else .ok (.importWrapped payload.headI
      (u16be (payload.drop 1).headI (payload.drop 2).headI))

/-- Dispatch key of ParseResponse: CommandType(data[0] + ResponseCommandOffset),
a uint8 addition, hence taken modulo 256. -/
def transactionTypeOf (opcode : Nat) : Nat := (opcode + ResponseCommandOffset) % 256

/-- The switch statement of ParseResponse, in source order. -/
def dispatchResponse (t : Nat) (payload : List Nat) : PResult Response :=
  if t = CommandTypeDeviceInfo then parseDeviceInfoResponse payload
  else if t = CommandTypeCreateSession then parseCreateSessionResponse payload
  else if t = CommandTypeAuthenticateSession then .ok .nilResp
  else if t = CommandTypeSessionMessage then parseSessionMessage payload
  else if t = CommandTypeGenerateAsymmetricKey then parseCreateAsymmetricKeyResponse payload
  else if t = CommandTypeSignDataEddsa then parseSignDataEddsaResponse payload
  else if t = CommandTypeSignDataEcdsa then parseSignDataEcdsaResponse payload
  else if t = CommandTypeSignDataPkcs1 then parseSignDataPkcs1Response payload
  else if t = CommandTypePutAsymmetric then parsePutAsymmetricKeyResponse payload
  else if t = CommandTypeListObjects then parseListObjectsResponse payload
  else if t = CommandTypeGetObjectInfo then parseGetObjectInfoResponse payload
  else if t = CommandTypeCloseSession then .ok .nilResp
  else if t = CommandTypeGetPubKey then parseGetPubKeyResponse payload
  else if t = CommandTypeDeleteObject then .ok .nilResp
  else if t = CommandTypeEcho then parseEchoResponse payload
  else if t = CommandTypeDeriveEcdh then parseDeriveEcdhResponse payload
  else if t = CommandTypeChangeAuthenticationKey then parseChangeAuthenticationKeyResponse payload
  else if t = CommandTypeGetPseudoRandom then parseGetPseudoRandomResponse payload
  else if t = CommandTypePutWrapKey then parsePutWrapkeyResponse payload
  else if t = CommandTypePutAuthKey then parsePutAuthkeyResponse payload
  else if t = CommandTypePutOpaque then parsePutOpaqueResponse payload
  else if t = CommandTypeGetOpaque then parseGetOpaqueResponse payload
  else if t = CommandTypeAttestAsymmetric then parseAttestationCertResponse payload
  else if t = CommandTypeExportWrapped then parseExportWrappedResponse payload
  else if t = CommandTypeImportWrapped then parseImportWrappedResponse payload
  else if t = ErrorResponseCode then parseErrorResponse payload
  else .err "response type unknown / not implemented"

/-- Translation of commands.ParseResponse: inputs shorter than 3 bytes are
rejected, the u16 big-endian at data[1..3] must equal the payload length,
and the payload is dispatched on data[0] + 0x80 (mod 256). -/
def ParseResponse (data : List Nat) : PResult Response :=
  match data with
  | b0 :: b1 :: b2 :: rest =>
    if rest.length ≠ u16be b1 b2 then
      .err "response payload length does not equal the given length"
    else dispatchResponse (transactionTypeOf b0) rest
  | _ => .err "invalid response"

/-! Command messages, from commands/command.go. -/

structure CommandMessage where
  commandType : Nat
  sessionID : Option Nat := none
  data : List Nat := []
  mac : Option (List Nat) := none
deriving DecidableEq

/-- BodyLength: payload length plus MAC length when present plus one byte
for the session id when present, cast to uint16. -/
def CommandMessage.bodyLength (c : CommandMessage) : Nat :=
  (c.data.length
    + (match c.mac with | some m => m.length | none => 0)
    + (match c.sessionID with | some _ => 1 | none => 0)) % 65536

/-- Serialize: command type, big-endian body length, optional session id,
payload, optional MAC, in that order. -/
def CommandMessage.serialize (c : CommandMessage) : List Nat :=
  [c.commandType % 256] ++ u16beBytes c.bodyLength
    ++ (match c.sessionID with | some sid => [sid % 256] | none => [])
    ++ c.data
    ++ (match c.mac with | some m => m | none => [])

/-! Command constructors used by the channel and the manager, from
commands/constructors.go. -/

def CreateCreateSessionCommand (keySetID : Nat) (hostChallenge : List Nat) : CommandMessage :=
  { commandType := CommandTypeCreateSession,
    data := u16beBytes keySetID ++ hostChallenge }

def CreateAuthenticateSessionCommand (hostCryptogram : List Nat) : CommandMessage :=
  { commandType := CommandTypeAuthenticateSession, data := hostCryptogram }

def CreateEchoCommand (data : List Nat) : CommandMessage :=
  { commandType := CommandTypeEcho, data := data }

def CreateCloseSessionCommand : CommandMessage :=
  { commandType := CommandTypeCloseSession }

/-! The secure channel, from securechannel/channel.go. -/

structure KeyChain where
  encKey : List Nat
  macKey : List Nat
  rmacKey : List Nat
deriving DecidableEq

/-- State of a SecureChannel.  The keyChain field is a Go pointer, nil
before authentication, hence an Option.  The connector is not part of the
state: each exchange is parameterized by a Transport oracle instead. -/
structure SecureChannel where
  authKeySlot : Nat
  keyChain : Option KeyChain
  id : Nat
  counter : Nat
  securityLevel : Nat
  hostChallenge : List Nat
  deviceChallenge : List Nat
  authKey : List Nat
  macChainValue : List Nat
deriving DecidableEq

/-- Abstract cryptographic primitives: AES-128 single-block encryption
(key, block), AES-CMAC (key, message, 16-byte tag) and AES-CBC
encryption/decryption (key, iv, data).  The concrete permutations never
decide any claim settled here. -/
structure Crypto where
  aesEncryptBlock : List Nat → List Nat → List Nat
  cmac : List Nat → List Nat → List Nat
  cbcEncrypt : List Nat → List Nat → List Nat → List Nat
  cbcDecrypt : List Nat → List Nat → List Nat → List Nat

/-- Outcome of one connector.Request round trip: the raw response bytes,
or a transport error. -/
inductive Transport where
  | ok (bytes : List Nat)
  | fail (msg : String)
deriving DecidableEq

/-- SendCommand: serialize and transmit the command (the wire request is
c.serialize; the oracle supplies the device behaviour), then parse the raw
response. -/
def SendCommand (_c : CommandMessage) (t : Transport) : PResult Response :=
  match t with
  | .fail msg => .err msg
  | .ok bytes => ParseResponse bytes

/-- deriveKDF of SecureChannel: the SCP03 counter-mode KDF.  The uint16
bit-length field is computed from the uint8 product keyLen*8, truncated
modulo 256 exactly as Go does. -/
def deriveKDF (crypto : Crypto) (s : SecureChannel) (key : List Nat)
    (derivationConstant : Nat) (keyLen : Nat) : PResult (List Nat) :=
  if key.length ≠ KeyLength then .err "invalid macKey length; should be 16"
  else if s.hostChallenge.length ≠ ChallengeLength then
    .err "invalid HostChallenge length; should be 8"
  else if s.deviceChallenge.length ≠ ChallengeLength then
    .err "invalid DeviceChallenge length; should be 8"
  else
    let derivationData :=
      List.replicate 11 0 ++ [derivationConstant % 256] ++ [0x00]
        ++ u16beBytes (keyLen * 8 % 256) ++ [0x01]
        ++ s.hostChallenge ++ s.deviceChallenge
    .ok ((crypto.cmac key derivationData).take keyLen)

/-- Key selected by the messageType switch of calculateMAC. -/
def macKeyFor (kc : KeyChain) (messageType : Nat) : List Nat :=
  if messageType = MessageTypeCommand then kc.macKey else kc.rmacKey

/-- calculateMAC of SecureChannel.  The messageType switch runs first (its
default returns an error before the keychain is touched); selecting a key
dereferences the keyChain pointer, a nil-pointer panic when the channel
never authenticated; aes.NewCipher rejects keys that are not 16, 24 or 32
bytes; binary.Write dereferences the SessionID pointer, panicking when the
command carries none. -/
def calculateMAC (crypto : Crypto) (s : SecureChannel) (c : CommandMessage)
    (messageType : Nat) : PResult (List Nat) :=
  if messageType ≠ MessageTypeCommand ∧ messageType ≠ MessageTypeResponse then
    .err "invalid messageType"
  else
    match s.keyChain with
    | none => .crash "invalid memory address or nil pointer dereference"
    | some kc =>
      if ¬((macKeyFor kc messageType).length = 16 ∨ (macKeyFor kc messageType).length = 24
          ∨ (macKeyFor kc messageType).length = 32) then
        .err "crypto aes invalid key size"
      else
        match c.sessionID with
        | none => .crash "invalid memory address or nil pointer dereference"
        | some sid =>
          .ok (crypto.cmac (macKeyFor kc messageType)
            (s.macChainValue ++ [c.commandType % 256]
              ++ u16beBytes ((1 + c.data.length + MACLength) % 65536)
              ++ [sid % 256] ++ c.data))

/-- sendMACCommand: set the command session id to the channel id, MAC the
command, store the full CMAC as the new chain value, attach the 8-byte
truncation, and send. -/
def sendMACCommand (crypto : Crypto) (s : SecureChannel) (c : CommandMessage)
    (t : Transport) : PResult Response × SecureChannel :=
  match calculateMAC crypto s { c with sessionID := some s.id } MessageTypeCommand with
  | .err m => (.err m, s)
  | .crash m => (.crash m, s)
  | .ok sum =>
    (SendCommand { c with sessionID := some s.id, mac := some (sum.take MACLength) } t,
     { s with macChainValue := sum })

/-- SendEncryptedCommand of SecureChannel.  Returns the parsed inner
response together with the channel state after the call.  The counter is
read for the IV before the exchange and incremented only after the
response MAC verifies, exactly as in the source; the CBC CryptBlocks
panics on inputs that are not whole blocks; a calculateMAC error on the
response side is ignored by the source, which then slices the nil
expectedMac and panics. -/
def ivOf (crypto : Crypto) (kc : KeyChain) (counter : Nat) : List Nat :=
  crypto.aesEncryptBlock kc.encKey (List.replicate 12 0 ++ u32beBytes (counter % 4294967296))

/-- The state after the counter increment that follows a verified
response MAC. -/
def bumpCounter (s : SecureChannel) : SecureChannel := { s with counter := s.counter + 1 }

def SendEncryptedCommand (crypto : Crypto) (s : SecureChannel)
    (c : CommandMessage) (t : Transport) : PResult Response × SecureChannel :=
  if s.securityLevel ≠ SecurityLevelAuthenticated then
    (.err "the session is not authenticated", s)
  else if MaxMessagesPerSession ≤ s.counter then
    (.err "channel has reached its message limit; please recreate", s)
  else
    match s.keyChain with
    | none => (.crash "invalid memory address or nil pointer dereference", s)
    | some kc =>
      if ¬(kc.encKey.length = 16 ∨ kc.encKey.length = 24 ∨ kc.encKey.length = 32) then
        (.err "crypto aes invalid key size", s)
      else if (pad c.serialize).length % blockSize ≠ 0 then
        (.crash "input not full blocks", s)
      else
        match sendMACCommand crypto s
            { commandType := CommandTypeSessionMessage,
              data := crypto.cbcEncrypt kc.encKey (ivOf crypto kc s.counter) (pad c.serialize) }
            t with
        | (.err m, s1) => (.err m, s1)
        | (.crash m, s1) => (.crash m, s1)
        | (.ok resp, s1) =>
          match resp with
          | .sessionMessage respSid respData respMac =>
            match calculateMAC crypto s1
                { commandType := (CommandTypeSessionMessage + ResponseCommandOffset) % 256,
                  sessionID := some respSid, data := respData }
                MessageTypeResponse with
            | .err _ => (.crash "slice bounds out of range", s1)
            | .crash m => (.crash m, s1)
            | .ok expectedMac =>
              if expectedMac.take MACLength ≠ respMac then
                (.err "invalid response MAC", s1)
              else if respData.length % blockSize ≠ 0 then
                (.crash "input not full blocks", bumpCounter s1)
              else
                match unpad (crypto.cbcDecrypt kc.encKey (ivOf crypto kc s.counter) respData) with
                | none => (.crash "index out of range", bumpCounter s1)
                | some u => (ParseResponse u, bumpCounter s1)
          | _ => (.err "invalid response type", s1)

/-- updateKeychain of SecureChannel, returning the keychain that the
source assigns to s.keyChain.  GetEncKey slices authKey[:16] (a panic when
the key is shorter) and GetMacKey takes authKey[16:]. -/
def updateKeychain (crypto : Crypto) (s : SecureChannel) : PResult KeyChain :=
  if s.authKey.length < 16 then .crash "slice bounds out of range"
  else
    match deriveKDF crypto s (s.authKey.take KeyLength) DerivationConstantEncKey KeyLength with
    | .err m => .err m
    | .crash m => .crash m
    | .ok encKey =>
      match deriveKDF crypto s (s.authKey.drop KeyLength) DerivationConstantMACKey KeyLength with
      | .err m => .err m
      | .crash m => .crash m
      | .ok macKey =>
        match deriveKDF crypto s (s.authKey.drop KeyLength) DerivationConstantRMACKey KeyLength with
        | .err m => .err m
        | .crash m => .crash m
        | .ok rmacKey => .ok ⟨encKey, macKey, rmacKey⟩

/-- The channel after Authenticate records the CREATE_SESSION response
fields (the assignments to s.ID and s.DeviceChallenge). -/
def afterCreateSession (s : SecureChannel) (respSid : Nat) (cardChallenge : List Nat) :
    SecureChannel :=
  { s with id := respSid, deviceChallenge := cardChallenge }

/-- The channel after updateKeychain stores the derived keychain. -/
def withKeyChain (s : SecureChannel) (kc : KeyChain) : SecureChannel :=
  { s with keyChain := some kc }

/-- Authenticate of SecureChannel.  The two transport oracles are the
CREATE_SESSION and AUTHENTICATE_SESSION round trips.  Session id, device
challenge and keychain are written into the channel before the cryptogram
comparison, exactly as in the source. -/
def Authenticate (crypto : Crypto) (s : SecureChannel) (t1 t2 : Transport) :
    PResult Unit × SecureChannel :=
  if s.securityLevel ≠ SecurityLevelUnauthenticated then
    (.err "the session is already authenticated", s)
  else
    match SendCommand (CreateCreateSessionCommand s.authKeySlot s.hostChallenge) t1 with
    | .err m => (.err m, s)
    | .crash m => (.crash m, s)
    | .ok resp =>
      match resp with
      | .createSession respSid cardChallenge cardCryptogram =>
        match updateKeychain crypto (afterCreateSession s respSid cardChallenge) with
        | .err m => (.err m, afterCreateSession s respSid cardChallenge)
        | .crash m => (.crash m, afterCreateSession s respSid cardChallenge)
        | .ok kc =>
          match deriveKDF crypto (withKeyChain (afterCreateSession s respSid cardChallenge) kc)
              kc.macKey DerivationConstantDeviceCryptogram CryptogramLength with
          | .err m => (.err m, withKeyChain (afterCreateSession s respSid cardChallenge) kc)
          | .crash m => (.crash m, withKeyChain (afterCreateSession s respSid cardChallenge) kc)
          | .ok deviceCryptogram =>
            if deviceCryptogram ≠ cardCryptogram then
              (.err "authentication failed: device sent wrong cryptogram",
               withKeyChain (afterCreateSession s respSid cardChallenge) kc)
            else
              match deriveKDF crypto (withKeyChain (afterCreateSession s respSid cardChallenge) kc)
                  kc.macKey DerivationConstantHostCryptogram CryptogramLength with
              | .err m => (.err m, withKeyChain (afterCreateSession s respSid cardChallenge) kc)
              | .crash m => (.crash m, withKeyChain (afterCreateSession s respSid cardChallenge) kc)
              | .ok hostCryptogram =>
                match sendMACCommand crypto (withKeyChain (afterCreateSession s respSid cardChallenge) kc)
                    (CreateAuthenticateSessionCommand hostCryptogram) t2 with
                | (.err m, s3) => (.err m, s3)
                | (.crash m, s3) => (.crash m, s3)
                | (.ok _, s3) =>
                  (.ok (), { s3 with counter := 1, securityLevel := SecurityLevelAuthenticated })
      | _ => (.err "invalid response type", s)

/-! The session manager, from manager.go. -/

/-- The fixed echo payload "keepalive" of the housekeeping probe. -/
def echoPayload : List Nat := [107, 101, 101, 112, 97, 108, 105, 118, 101]

/-- Liveness probe of one pooled channel inside SessionManager.household:
send an Echo, then examine the result.  Returns whether the channel is
pushed onto the recycle queue, along with the channel state after the
probe.  The source assigns the failed type assertion to parsedResp and
then reads parsedResp.Data unconditionally, so a successful exchange whose
parsed response is not an EchoResponse dereferences a nil pointer. -/
def householdProbe (crypto : Crypto) (session : SecureChannel) (t : Transport) :
    PResult Bool × SecureChannel :=
  match SendEncryptedCommand crypto session (CreateEchoCommand echoPayload) t with
  | (.crash m, s1) => (.crash m, s1)
  | (.err _, s1) =>
    (.ok (decide (MaxMessagesPerSession * 9 / 10 < s1.counter) || true), s1)
  | (.ok resp, s1) =>
    match resp with
    | .echo d =>
      (.ok (decide (MaxMessagesPerSession * 9 / 10 < s1.counter) || decide (d ≠ echoPayload)), s1)
    | _ => (.crash "invalid memory address or nil pointer dereference", s1)

/-- Pool-replenishment loop of SessionManager.household:
for i := 0; i < int(poolSize)-len(sessions); i++ with a createSession call
per iteration.  Each successful createSession appends one channel, so
under the assumption that every creation and authentication succeeds the
pool length grows by one per iteration while the loop bound is
re-evaluated against the grown pool.  The function returns the final pool
length from the loop counter i and the current length. -/
def householdFill (poolSize : Nat) (i : Nat) (len : Nat) : Nat :=
  if (i : Int) < (poolSize : Int) - (len : Int) then householdFill poolSize (i + 1) (len + 1)
  else len
termination_by poolSize - (i + len)
decreasing_by omega

/-- Run a list of encrypted exchanges on one channel, threading the channel
state; the Boolean records whether every call returned without error. -/
def sendSeq (crypto : Crypto) : SecureChannel → List (CommandMessage × Transport) →
    SecureChannel × Bool
  | s, [] => (s, true)
  | s, ct :: rest =>
    let r := SendEncryptedCommand crypto s ct.1 ct.2
    let tail := sendSeq crypto r.2 rest
    (tail.1, r.1.isOk && tail.2)

/-! Observers used to state the counter claims: the request MAC and the
expected response MAC of one encrypted exchange, restated from
channel.go so that MAC acceptance can appear as a hypothesis. -/

/-- Observer: the encrypted session-message body of one exchange. -/
def encBody (crypto : Crypto) (kc : KeyChain) (s : SecureChannel)
    (c : CommandMessage) : List Nat :=
  crypto.cbcEncrypt kc.encKey (ivOf crypto kc s.counter) (pad c.serialize)

/-- Observer: the CMAC of a session-message command with body X, chained
on the channel state, as calculateMAC computes it for the request. -/
def chainedMac (crypto : Crypto) (kc : KeyChain) (s : SecureChannel) (X : List Nat) : List Nat :=
  crypto.cmac kc.macKey (s.macChainValue ++ [CommandTypeSessionMessage % 256]
    ++ u16beBytes ((1 + X.length + MACLength) % 65536) ++ [s.id % 256] ++ X)

/-- Observer: the full 16-byte request CMAC that sendMACCommand computes
and installs as the new chain value during SendEncryptedCommand. -/
def requestMac (crypto : Crypto) (kc : KeyChain) (s : SecureChannel)
    (c : CommandMessage) : List Nat :=
  chainedMac crypto kc s (encBody crypto kc s c)

/-- Observer: the full 16-byte expected response CMAC, computed over the
updated chain value, for a session-message reply with the given session id
and encrypted data. -/
def responseMac (crypto : Crypto) (kc : KeyChain) (s : SecureChannel)
    (c : CommandMessage) (respSid : Nat) (respData : List Nat) : List Nat :=
  crypto.cmac kc.rmacKey (requestMac crypto kc s c
    ++ [(CommandTypeSessionMessage + ResponseCommandOffset) % 256]
    ++ u16beBytes ((1 + respData.length + MACLength) % 65536)
    ++ [respSid % 256] ++ respData)

/-! Concrete instances used by witnesses and counterexamples. -/

/-- Degenerate but well-typed crypto primitives: the identity block cipher,
the all-zero CMAC, and identity CBC.  Control-flow claims are insensitive
to this choice. -/
def cryptoTriv : Crypto :=
  { aesEncryptBlock := fun _ b => b,
    cmac := fun _ _ => List.replicate 16 0,
    cbcEncrypt := fun _ _ d => d,
    cbcDecrypt := fun _ _ d => d }

/-- Variant whose CMAC is the all-ones tag, making chain-value updates
visible on states whose chain value was all zero. -/
def cryptoOnes : Crypto :=
  { aesEncryptBlock := fun _ b => b,
    cmac := fun _ _ => List.replicate 16 1,
    cbcEncrypt := fun _ _ d => d,
    cbcDecrypt := fun _ _ d => d }

/-- A freshly constructed, unauthenticated channel (NewSecureChannel with
slot 1 and a fixed host challenge; the password-derived 32-byte auth key is
taken to be all zero). -/
def chanUnauth : SecureChannel :=
  { authKeySlot := 1, keyChain := none, id := 0, counter := 0,
    securityLevel := SecurityLevelUnauthenticated,
    hostChallenge := [1, 2, 3, 4, 5, 6, 7, 8], deviceChallenge := [],
    authKey := List.replicate 32 0, macChainValue := List.replicate 16 0 }

/-- An authenticated channel mid-session: counter 5, session keys present. -/
def chanAuth : SecureChannel :=
  { authKeySlot := 1,
    keyChain := some ⟨List.replicate 16 0, List.replicate 16 0, List.replicate 16 0⟩,
    id := 1, counter := 5, securityLevel := SecurityLevelAuthenticated,
    hostChallenge := [1, 2, 3, 4, 5, 6, 7, 8],
    deviceChallenge := [9, 10, 11, 12, 13, 14, 15, 16],
    authKey := List.replicate 32 0, macChainValue := List.replicate 16 0 }

/-- Raw CREATE_SESSION reply whose card cryptogram (eight 0x01 bytes)
differs from the all-zero cryptogram that cryptoTriv derives: opcode 0x83,
17-byte payload of session id 7, card challenge 21..28, wrong cryptogram. -/
def wireWrongCryptogram : List Nat :=
  [0x83, 0, 17, 7, 21, 22, 23, 24, 25, 26, 27, 28, 1, 1, 1, 1, 1, 1, 1, 1]

/-- Raw SESSION_MESSAGE reply accepted by chanAuth under cryptoTriv whose
decrypted inner frame parses to the nil AUTHENTICATE_SESSION response:
opcode 0x85, 25-byte payload of session id 1, a 16-byte encrypted block
(the padded inner frame 0x84 00 01 07), and the all-zero 8-byte MAC. -/
def wireInnerNil : List Nat :=
  [0x85, 0, 25, 1,
   0x84, 0, 1, 7, 0x80, 0, 0, 0, 0, 0, 0, 0, 0, 0, 0, 0,
   0, 0, 0, 0, 0, 0, 0, 0]

/-! Theorems.  Helper lemmas first, then one theorem per claim (with its
witness or counterexample where required). -/

/-- The early-return guard of pad is dead code: 16 - (len mod 16) is never
zero, so pad always appends 0x80 followed by 15 - (len mod 16) zero
bytes. -/
theorem pad_spec (s : List Nat) :
    pad s = s ++ 0x80 :: List.replicate (15 - s.length % 16) 0x00 := by
  have h : ¬(blockSize - s.length % blockSize = 0) := by
    simp only [blockSize]; omega
  have h15 : blockSize - s.length % blockSize - 1 = 15 - s.length % 16 := by
    simp only [blockSize]; omega
  simp only [pad, if_neg h, h15]

/-- The padded length is always a whole number of blocks. -/
theorem pad_length_mod (s : List Nat) : (pad s).length % blockSize = 0 := by
  rw [pad_spec]
  simp only [List.length_append, List.length_cons, List.length_replicate, blockSize]
  omega

/-- Scanning a 0x00 byte counts it and continues. -/
theorem padScan_cons_zero (t : List Nat) : padScan (0x00 :: t) = 1 + padScan t := by
  simp [padScan]

/-- Scanning a 0x80 byte counts it and stops. -/
theorem padScan_cons_mark (t : List Nat) : padScan (0x80 :: t) = 1 := by
  simp [padScan]

/-- The backward scan counts the k trailing zeros plus the terminating
0x80, whatever lies beyond it. -/
theorem padScan_replicate (k : Nat) (t : List Nat) :
    padScan (List.replicate k 0x00 ++ 0x80 :: t) = k + 1 := by
  induction k with
  | zero => simp [padScan_cons_mark]
  | succ n ih =>
    rw [List.replicate_succ, List.cons_append, padScan_cons_zero, ih]
    omega

/-- Stripping the padding that pad appended recovers the original string,
for inputs of every length. -/
theorem unpad_appendPad (s : List Nat) (k : Nat) :
    unpad (s ++ 0x80 :: List.replicate k 0x00) = some s := by
  have hrev : (s ++ 0x80 :: List.replicate k 0x00).reverse
      = List.replicate k 0x00 ++ 0x80 :: s.reverse := by
    rw [List.reverse_append, List.reverse_cons, List.reverse_replicate, List.append_assoc]
    rfl
  have hlen : (s ++ 0x80 :: List.replicate k 0x00).length = s.length + (k + 1) := by
    simp [List.length_append]
  unfold unpad
  rw [if_neg (by simp [hlen])]
  rw [hrev, hlen]
  cases k with
  | zero =>
    simp only [List.replicate_zero, List.nil_append, List.headI]
    rw [if_neg (by simp)]
    rw [padScan_cons_mark]
    have hd : s.length + (0 + 1) - 1 = s.length := by omega
    rw [hd]
    exact congrArg some (List.take_left s (0x80 :: List.replicate 0 0x00))
  | succ n =>
    rw [List.replicate_succ, List.cons_append]
    simp only [List.headI]
    rw [if_neg (by simp)]
    rw [padScan_cons_zero, padScan_replicate]
    have hd : s.length + (n + 1 + 1) - (1 + (n + 1)) = s.length := by omega
    rw [hd]
    exact congrArg some (List.take_left s (0x80 :: 0x00 :: List.replicate n 0x00))

/-- The round trip holds for every input, including whole-block inputs,
because pad always appends a terminated padding block. -/
theorem unpad_pad (s : List Nat) : unpad (pad s) = some s := by
  rw [pad_spec]; exact unpad_appendPad s (15 - s.length % 16)

/-- C2, counterexample: the claim says pad leaves the empty string (a
length that is a multiple of 16) unchanged, but pad appends a full padding
block to it, because the early-return guard 16 - (len mod 16) == 0 never
holds. -/
theorem C2_counterexample_pad_empty : pad ([] : List Nat) ≠ [] := by decide

/-- C2 (amended): for every byte string, pad appends 0x80 followed by 0x00
bytes up to the next strictly larger multiple of 16; in particular a
whole-block input receives a full extra padding block, and the
return-unchanged branch for multiples of 16 is dead code. -/
theorem C2_pad_always_appends (s : List Nat) :
    pad s = s ++ 0x80 :: List.replicate (15 - s.length % 16) 0x00 := pad_spec s

/-- C6: for every byte string whose length is not a multiple of 16,
unpad inverts pad (the model returns some of the original string; the
round trip in fact holds for all lengths). -/
theorem C6_unpad_pad_roundtrip (s : List Nat) (h : s.length % 16 ≠ 0) :
    unpad (pad s) = some s := unpad_pad s

/-- C6 witness at the concrete input [1, 2, 3]. -/
theorem C6_unpad_pad_roundtrip_witness :
    ([1, 2, 3] : List Nat).length % 16 ≠ 0 ∧ unpad (pad [1, 2, 3]) = some [1, 2, 3] :=
  ⟨by decide, C6_unpad_pad_roundtrip [1, 2, 3] (by decide)⟩

/-- C5: ParseResponse rejects inputs shorter than 3 bytes, requires the
payload length to equal the big-endian u16 at data[1..3], dispatches the
payload on the key data[0] + 0x80 taken mod 256, and that key coincides
with the specified data[0] - 0x80 mod 256 for every byte value. -/
theorem C5_parse_response_framing (data : List Nat) :
    (data.length < 3 → ParseResponse data = .err "invalid response") ∧
    (∀ b0 b1 b2 rest, data = b0 :: b1 :: b2 :: rest →
      rest.length ≠ u16be b1 b2 →
      ParseResponse data = .err "response payload length does not equal the given length") ∧
    (∀ b0 b1 b2 rest, data = b0 :: b1 :: b2 :: rest →
      rest.length = u16be b1 b2 →
      ParseResponse data = dispatchResponse (transactionTypeOf b0) rest) ∧
    (∀ v : Nat, v < 256 → (transactionTypeOf v : Int) = ((v : Int) - 0x80) % 256) := by
  refine ⟨?_, ?_, ?_, ?_⟩
  · intro h
    rcases data with _ | ⟨a, _ | ⟨b, _ | ⟨c, rest⟩⟩⟩
    · rfl
    · rfl
    · rfl
    · exact absurd h (by simp)
  · rintro b0 b1 b2 rest rfl h
    simp only [ParseResponse]
    rw [if_pos h]
  · rintro b0 b1 b2 rest rfl h
    simp only [ParseResponse]
    rw [if_neg (not_not_intro h)]
  · intro v hv
    unfold transactionTypeOf ResponseCommandOffset
    omega

/-- C5 witness: the length guard at the empty input and the dispatch-key
identity at the session-message response opcode 0x85. -/
theorem C5_parse_response_framing_witness :
    ParseResponse [] = .err "invalid response" ∧
    (transactionTypeOf 0x85 : Int) = ((0x85 : Int) - 0x80) % 256 :=
  ⟨(C5_parse_response_framing []).1 (by decide),
   (C5_parse_response_framing []).2.2.2 0x85 (by norm_num)⟩

/-- C7: evaluation of the SessionMessage decoder.  On every payload
shorter than 9 bytes the source panics (index out of range on the empty
payload, slice bounds out of range for lengths 1 to 8) instead of
returning an error as the claim and the spec require; on payloads of at
least 9 bytes it returns the claimed fields. -/
theorem C7_parseSessionMessage_eval :
    parseSessionMessage [] = .crash "index out of range" ∧
    parseSessionMessage [1] = .crash "slice bounds out of range" ∧
    parseSessionMessage [1, 2, 3, 4, 5, 6, 7, 8] = .crash "slice bounds out of range" ∧
    parseSessionMessage [1, 2, 3, 4, 5, 6, 7, 8, 9]
      = .ok (.sessionMessage 1 [] [2, 3, 4, 5, 6, 7, 8, 9]) ∧
    parseSessionMessage [9, 8, 7, 6, 5, 4, 3, 2, 1, 0]
      = .ok (.sessionMessage 9 [8] [7, 6, 5, 4, 3, 2, 1, 0]) := by decide

/-- C8: evaluation of parseCreateAsymmetricKeyResponse.  Lengths other
than 2 are rejected, but a well-formed 2-byte payload is never decoded to
its big-endian u16: the source reads payload[1:3], indexing one byte past
the declared payload, an out-of-bounds access. -/
theorem C8_parseCreateAsymmetricKey_eval :
    parseCreateAsymmetricKeyResponse [0x12, 0x34] = .crash "slice bounds out of range" ∧
    parseCreateAsymmetricKeyResponse [1] = .err "invalid response payload length" ∧
    parseCreateAsymmetricKeyResponse [1, 2, 3] = .err "invalid response payload length" := by
  decide

/-- sendMACCommand only ever rewrites the MAC chain value: the resulting
state is the input state with at most macChainValue changed. -/
theorem sendMAC_snd (crypto : Crypto) (s : SecureChannel) (c : CommandMessage)
    (t : Transport) :
    (sendMACCommand crypto s c t).2
      = { s with macChainValue := (sendMACCommand crypto s c t).2.macChainValue } := by
  unfold sendMACCommand
  split
  · rfl
  · rfl
  · rfl

/-- The counter survives sendMACCommand unchanged. -/
theorem sendMAC_counter (crypto : Crypto) (s : SecureChannel) (c : CommandMessage)
    (t : Transport) : (sendMACCommand crypto s c t).2.counter = s.counter := by
  have h := congrArg SecureChannel.counter (sendMAC_snd crypto s c t)
  simpa using h

/-- A successful SendEncryptedCommand advances the counter by exactly one,
and can only happen strictly below the session cap. -/
theorem sendEnc_ok_counter (crypto : Crypto) (s : SecureChannel) (c : CommandMessage)
    (t : Transport) (r : Response) (s2 : SecureChannel)
    (heq : SendEncryptedCommand crypto s c t = (.ok r, s2)) :
    s2.counter = s.counter + 1 ∧ s.counter < MaxMessagesPerSession := by
  unfold SendEncryptedCommand at heq
  split at heq
  · simp at heq
  split at heq
  · simp at heq
  next h2 =>
  split at heq
  · simp at heq
  next kc hkc =>
  split at heq
  · simp at heq
  split at heq
  · simp at heq
  split at heq
  next m s1 hm => simp at heq
  next m s1 hm => simp at heq
  next resp s1 hm =>
  split at heq
  next respSid respData respMac =>
    split at heq
    · simp at heq
    · simp at heq
    next expectedMac hmac =>
    split at heq
    · simp at heq
    split at heq
    · simp at heq
    split at heq
    · simp at heq
    next u hu =>
      simp only [Prod.mk.injEq] at heq
      obtain ⟨-, hsnd⟩ := heq
      have hs1 : (sendMACCommand crypto s
          { commandType := CommandTypeSessionMessage,
            data := crypto.cbcEncrypt kc.encKey (ivOf crypto kc s.counter) (pad c.serialize) }
          t).2 = s1 := congrArg Prod.snd hm
      have hctr : s1.counter = s.counter := by
        rw [← hs1, sendMAC_counter]
      constructor
      · rw [← hsnd]
        simp only [bumpCounter]
        omega
      · omega
  · simp at heq

/-- A call on an unauthenticated channel fails without touching any state. -/
theorem sendEnc_not_authenticated (crypto : Crypto) (s : SecureChannel)
    (c : CommandMessage) (t : Transport) (h : s.securityLevel ≠ SecurityLevelAuthenticated) :
    SendEncryptedCommand crypto s c t = (.err "the session is not authenticated", s) := by
  unfold SendEncryptedCommand
  rw [if_pos h]

/-- A call at or past the session cap fails without touching any state. -/
theorem sendEnc_exhausted (crypto : Crypto) (s : SecureChannel)
    (c : CommandMessage) (t : Transport) (h1 : s.securityLevel = SecurityLevelAuthenticated)
    (h2 : MaxMessagesPerSession ≤ s.counter) :
    SendEncryptedCommand crypto s c t
      = (.err "channel has reached its message limit; please recreate", s) := by
  unfold SendEncryptedCommand
  rw [if_neg (not_not_intro h1), if_pos h2]

/-- Over a sequence in which every call succeeds, the counter grows by
exactly the number of calls and stays at or below the session cap. -/
theorem sendSeq_counter (crypto : Crypto) (calls : List (CommandMessage × Transport)) :
    ∀ s : SecureChannel, (sendSeq crypto s calls).2 = true →
      (sendSeq crypto s calls).1.counter = s.counter + calls.length ∧
      (0 < calls.length → (sendSeq crypto s calls).1.counter ≤ MaxMessagesPerSession) := by
  induction calls with
  | nil => intro s _; simp [sendSeq]
  | cons ct rest ih =>
    intro s hall
    simp only [sendSeq, Bool.and_eq_true] at hall ⊢
    obtain ⟨hok, htail⟩ := hall
    rcases hr1 : (SendEncryptedCommand crypto s ct.1 ct.2).1 with r | m | m
    case err => rw [hr1] at hok; simp [PResult.isOk] at hok
    case crash => rw [hr1] at hok; simp [PResult.isOk] at hok
    case ok =>
      have heq : SendEncryptedCommand crypto s ct.1 ct.2
          = (.ok r, (SendEncryptedCommand crypto s ct.1 ct.2).2) := Prod.ext hr1 rfl
      have hstep := sendEnc_ok_counter crypto s ct.1 ct.2 r _ heq
      have htl := ih _ htail
      simp only [List.length_cons]
      rcases rest with _ | ⟨ct2, rest2⟩
      · simp only [sendSeq] at htl ⊢
        omega
      · have hpos : 0 < (ct2 :: rest2).length := by simp
        obtain ⟨ha, hb⟩ := htl
        exact ⟨by omega, fun _ => hb hpos⟩

/-- C3: across any sequence of successful SendEncryptedCommand calls on
one authenticated channel the counter increases by exactly one per call
and never exceeds MaxMessagesPerSession; a call on an unauthenticated
channel or at the cap returns an error and leaves the channel exactly as
it was. -/
theorem C3_counter_monotonic (crypto : Crypto) (s : SecureChannel)
    (c : CommandMessage) (t : Transport) :
    (s.securityLevel ≠ SecurityLevelAuthenticated →
      SendEncryptedCommand crypto s c t = (.err "the session is not authenticated", s)) ∧
    (s.securityLevel = SecurityLevelAuthenticated → MaxMessagesPerSession ≤ s.counter →
      SendEncryptedCommand crypto s c t
        = (.err "channel has reached its message limit; please recreate", s)) ∧
    (∀ r s2, SendEncryptedCommand crypto s c t = (.ok r, s2) →
      s2.counter = s.counter + 1 ∧ s.counter < MaxMessagesPerSession ∧
      s2.counter ≤ MaxMessagesPerSession) ∧
    (∀ calls : List (CommandMessage × Transport), (sendSeq crypto s calls).2 = true →
      (sendSeq crypto s calls).1.counter = s.counter + calls.length ∧
      (0 < calls.length → (sendSeq crypto s calls).1.counter ≤ MaxMessagesPerSession)) := by
  refine ⟨sendEnc_not_authenticated crypto s c t,
          sendEnc_exhausted crypto s c t, ?_, fun calls => sendSeq_counter crypto calls s⟩
  intro r s2 heq
  have h := sendEnc_ok_counter crypto s c t r s2 heq
  exact ⟨h.1, h.2, by omega⟩

/-- C3 witness: on the concrete unauthenticated channel the call errs and
returns the channel unchanged. -/
theorem C3_counter_monotonic_witness :
    SendEncryptedCommand cryptoTriv chanUnauth (CreateEchoCommand echoPayload) (.fail "x")
      = (.err "the session is not authenticated", chanUnauth) :=
  (C3_counter_monotonic cryptoTriv chanUnauth (CreateEchoCommand echoPayload) (.fail "x")).1
    (by decide)

/-- Projection helpers for equations between a computed pair and a
literal pair. -/
theorem fst_of_eq_pair {A B : Type} {x : A × B} {a : A} {b : B} (h : x = (a, b)) :
    a = x.1 := by rw [h]

theorem snd_of_eq_pair {A B : Type} {x : A × B} {a : A} {b : B} (h : x = (a, b)) :
    b = x.2 := by rw [h]

/-- A MACed command sent over a failed transport never yields a value. -/
theorem sendMAC_fail_not_ok (crypto : Crypto) (s : SecureChannel) (c : CommandMessage)
    (msg : String) : (sendMACCommand crypto s c (Transport.fail msg)).1.isOk = false := by
  unfold sendMACCommand
  split
  · rfl
  · rfl
  · rfl

/-- When a MACed command over a live transport yields a value, that value
is the parse of the raw response bytes. -/
theorem sendMAC_fst_ok (crypto : Crypto) (s : SecureChannel) (c : CommandMessage)
    (bytes : List Nat) (r : Response)
    (h : (sendMACCommand crypto s c (Transport.ok bytes)).1 = .ok r) :
    ParseResponse bytes = .ok r := by
  unfold sendMACCommand at h
  split at h
  · exact absurd h (by simp)
  · exact absurd h (by simp)
  · exact h

/-- On a transport error the counter is unchanged (the call fails after
the request MAC was generated and the chain value advanced). -/
theorem sendEnc_fail_counter (crypto : Crypto) (s : SecureChannel) (c : CommandMessage)
    (msg : String) :
    (SendEncryptedCommand crypto s c (Transport.fail msg)).2.counter = s.counter := by
  unfold SendEncryptedCommand
  split
  · rfl
  split
  · rfl
  split
  · rfl
  next kc hkc =>
  split
  · rfl
  split
  · rfl
  split
  next m s1 hm =>
    dsimp only
    rw [snd_of_eq_pair hm, sendMAC_counter]
  next m s1 hm =>
    dsimp only
    rw [snd_of_eq_pair hm, sendMAC_counter]
  next resp s1 hm =>
    exfalso
    have h1 := congrArg Prod.fst hm
    have h3 := sendMAC_fail_not_ok crypto s
      { commandType := CommandTypeSessionMessage,
        data := crypto.cbcEncrypt kc.encKey (ivOf crypto kc s.counter) (pad c.serialize) } msg
    rw [h1] at h3
    simp [PResult.isOk] at h3

/-- When the raw reply does not parse to a session message (transport-level
parse failure or wrong response type), the counter is unchanged. -/
theorem sendEnc_nonSession_counter (crypto : Crypto) (s : SecureChannel) (c : CommandMessage)
    (bytes : List Nat)
    (hnsm : ∀ sid d m, ParseResponse bytes ≠ .ok (.sessionMessage sid d m)) :
    (SendEncryptedCommand crypto s c (Transport.ok bytes)).2.counter = s.counter := by
  unfold SendEncryptedCommand
  split
  · rfl
  split
  · rfl
  split
  · rfl
  next kc hkc =>
  split
  · rfl
  split
  · rfl
  split
  next m s1 hm =>
    dsimp only
    rw [snd_of_eq_pair hm, sendMAC_counter]
  next m s1 hm =>
    dsimp only
    rw [snd_of_eq_pair hm, sendMAC_counter]
  next resp s1 hm =>
    split
    next respSid respData respMac =>
      exact absurd (sendMAC_fst_ok crypto s _ bytes _ (congrArg Prod.fst hm))
        (hnsm respSid respData respMac)
    next =>
      dsimp only
      rw [snd_of_eq_pair hm, sendMAC_counter]

/-- Evaluation of calculateMAC on a command with a session id, keychain
present and a well-formed MAC key. -/
theorem calculateMAC_cmd_eval (crypto : Crypto) (s : SecureChannel) (kc : KeyChain)
    (hkc : s.keyChain = some kc) (hmk : kc.macKey.length = 16)
    (ct sid : Nat) (d : List Nat) (mc : Option (List Nat)) :
    calculateMAC crypto s { commandType := ct, sessionID := some sid, data := d, mac := mc }
        MessageTypeCommand
      = .ok (crypto.cmac kc.macKey (s.macChainValue ++ [ct % 256]
          ++ u16beBytes ((1 + d.length + MACLength) % 65536) ++ [sid % 256] ++ d)) := by
  unfold calculateMAC
  rw [if_neg (by simp [MessageTypeCommand, MessageTypeResponse])]
  rw [hkc]
  have hkey : macKeyFor kc MessageTypeCommand = kc.macKey := by
    simp [macKeyFor]
  simp only [hkey, hmk]
  norm_num

/-- Evaluation of calculateMAC on a response with a session id, keychain
present and a well-formed response-MAC key. -/
theorem calculateMAC_resp_eval (crypto : Crypto) (su : SecureChannel) (kc : KeyChain)
    (hkc : su.keyChain = some kc) (hrk : kc.rmacKey.length = 16)
    (ct sid : Nat) (d : List Nat) (mc : Option (List Nat)) :
    calculateMAC crypto su { commandType := ct, sessionID := some sid, data := d, mac := mc }
        MessageTypeResponse
      = .ok (crypto.cmac kc.rmacKey (su.macChainValue ++ [ct % 256]
          ++ u16beBytes ((1 + d.length + MACLength) % 65536) ++ [sid % 256] ++ d)) := by
  unfold calculateMAC
  rw [if_neg (by simp [MessageTypeCommand, MessageTypeResponse])]
  rw [hkc]
  have hkey : macKeyFor kc MessageTypeResponse = kc.rmacKey := by
    simp [macKeyFor, MessageTypeResponse, MessageTypeCommand]
  simp only [hkey, hrk]
  norm_num

/-- Evaluation of sendMACCommand on the wrapped session-message command:
the chain value becomes the chained CMAC of the encrypted body, and the
wire command carries its 8-byte truncation. -/
theorem sendMAC_sessionMsg_eval (crypto : Crypto) (s : SecureChannel) (kc : KeyChain)
    (X : List Nat) (t : Transport)
    (hkc : s.keyChain = some kc) (hmk : kc.macKey.length = 16) :
    sendMACCommand crypto s { commandType := CommandTypeSessionMessage, data := X } t
      = (SendCommand { commandType := CommandTypeSessionMessage,
                       sessionID := some s.id,
                       data := X,
                       mac := some ((chainedMac crypto kc s X).take MACLength) } t,
         { s with macChainValue := chainedMac crypto kc s X }) := by
  unfold sendMACCommand
  dsimp only
  rw [calculateMAC_cmd_eval crypto s kc hkc hmk CommandTypeSessionMessage s.id X none]
  rfl

/-- Behaviour of SendEncryptedCommand once the reply parses to a session
message: the call reduces to the response-MAC comparison followed by the
counter increment and decrypt, over the state whose chain value already
holds the request MAC. -/
theorem sendEnc_session_eval (crypto : Crypto) (s : SecureChannel) (c : CommandMessage)
    (bytes : List Nat) (sid : Nat) (d m : List Nat) (kc : KeyChain)
    (hS : s.securityLevel = SecurityLevelAuthenticated)
    (hC : s.counter < MaxMessagesPerSession)
    (hkc : s.keyChain = some kc)
    (hek : kc.encKey.length = 16) (hmk : kc.macKey.length = 16) (hrk : kc.rmacKey.length = 16)
    (hp : ParseResponse bytes = .ok (.sessionMessage sid d m)) :
    SendEncryptedCommand crypto s c (Transport.ok bytes)
      = (if (responseMac crypto kc s c sid d).take MACLength ≠ m then
           (.err "invalid response MAC", { s with macChainValue := requestMac crypto kc s c })
         else if d.length % blockSize ≠ 0 then
           (.crash "input not full blocks",
            bumpCounter { s with macChainValue := requestMac crypto kc s c })
         else
           match unpad (crypto.cbcDecrypt kc.encKey (ivOf crypto kc s.counter) d) with
           | none => (.crash "index out of range",
                      bumpCounter { s with macChainValue := requestMac crypto kc s c })
           | some u => (ParseResponse u,
                        bumpCounter { s with macChainValue := requestMac crypto kc s c })) := by
  unfold SendEncryptedCommand
  rw [if_neg (not_not_intro hS)]
  rw [if_neg (by omega)]
  rw [hkc]
  dsimp only
  rw [if_neg (not_not_intro (Or.inl hek))]
  rw [if_neg (not_not_intro (pad_length_mod c.serialize))]
  rw [sendMAC_sessionMsg_eval crypto s kc
    (crypto.cbcEncrypt kc.encKey (ivOf crypto kc s.counter) (pad c.serialize))
    (Transport.ok bytes) hkc hmk]
  dsimp only [SendCommand]
  rw [hp]
  dsimp only
  rw [calculateMAC_resp_eval crypto
    { s with macChainValue := chainedMac crypto kc s
               (crypto.cbcEncrypt kc.encKey (ivOf crypto kc s.counter) (pad c.serialize)) }
    kc (by exact hkc) hrk ((CommandTypeSessionMessage + ResponseCommandOffset) % 256) sid d none]
  rw [hkc]
  rfl

/-- C1 (amended): after the request MAC has been generated, a transport
error, a reply that does not parse to a session message, or a response-MAC
mismatch leaves the Counter unchanged (only the MAC chain value has
advanced), so a retry on the same channel reuses the IV derived from the
same counter; the Counter advances by one exactly when the response MAC
verifies, even if the subsequent decrypt or inner parse fails. -/
theorem C1_counter_on_failure (crypto : Crypto) (s : SecureChannel) (c : CommandMessage) :
    (∀ msg, (SendEncryptedCommand crypto s c (Transport.fail msg)).2.counter = s.counter) ∧
    (∀ bytes, (∀ sid d m, ParseResponse bytes ≠ .ok (.sessionMessage sid d m)) →
      (SendEncryptedCommand crypto s c (Transport.ok bytes)).2.counter = s.counter) ∧
    (∀ bytes sid d m kc,
      s.securityLevel = SecurityLevelAuthenticated → s.counter < MaxMessagesPerSession →
      s.keyChain = some kc → kc.encKey.length = 16 → kc.macKey.length = 16 →
      kc.rmacKey.length = 16 → ParseResponse bytes = .ok (.sessionMessage sid d m) →
      (((responseMac crypto kc s c sid d).take MACLength ≠ m →
          SendEncryptedCommand crypto s c (Transport.ok bytes)
            = (.err "invalid response MAC",
               { s with macChainValue := requestMac crypto kc s c })) ∧
       ((responseMac crypto kc s c sid d).take MACLength = m →
          (SendEncryptedCommand crypto s c (Transport.ok bytes)).2.counter = s.counter + 1))) := by
  refine ⟨sendEnc_fail_counter crypto s c, sendEnc_nonSession_counter crypto s c, ?_⟩
  intro bytes sid d m kc hS hC hkc hek hmk hrk hp
  have he := sendEnc_session_eval crypto s c bytes sid d m kc hS hC hkc hek hmk hrk hp
  constructor
  · intro hne
    rw [he, if_pos hne]
  · intro heqm
    rw [he, if_neg (not_not_intro heqm)]
    split
    · rfl
    split
    · rfl
    · rfl

/-- C1, counterexample: on the concrete authenticated channel, a transport
error that strikes after the request MAC was generated (the chain value
has been overwritten with the new MAC) surfaces as an error with the
Counter NOT advanced, contradicting the claim that the counter still
advances by one. -/
theorem C1_counterexample_transport_fail :
    (SendEncryptedCommand cryptoOnes chanAuth (CreateEchoCommand echoPayload)
        (Transport.fail "transport error")).1 = .err "transport error" ∧
    (SendEncryptedCommand cryptoOnes chanAuth (CreateEchoCommand echoPayload)
        (Transport.fail "transport error")).2.counter = chanAuth.counter ∧
    (SendEncryptedCommand cryptoOnes chanAuth (CreateEchoCommand echoPayload)
        (Transport.fail "transport error")).2.macChainValue = List.replicate 16 1 := by
  decide

/-- C1 witness: on the concrete accepted session-message reply the counter
advances from 5 to 6. -/
theorem C1_counter_on_failure_witness :
    (SendEncryptedCommand cryptoTriv chanAuth (CreateEchoCommand echoPayload)
        (Transport.ok wireInnerNil)).2.counter = chanAuth.counter + 1 := by
  have h := (C1_counter_on_failure cryptoTriv chanAuth (CreateEchoCommand echoPayload)).2.2
    wireInnerNil 1 [0x84, 0, 1, 7, 0x80, 0, 0, 0, 0, 0, 0, 0, 0, 0, 0, 0] (List.replicate 8 0)
    ⟨List.replicate 16 0, List.replicate 16 0, List.replicate 16 0⟩
    (by decide) (by decide) (by decide) (by decide) (by decide) (by decide) (by decide)
  exact h.2 (by decide)

/-- C4 (amended): on a cryptogram mismatch Authenticate returns the
authentication-failure error and the channel remains Unauthenticated with
its counter, host challenge, auth key and MAC chain value untouched, but
the session id, device challenge and keychain have already been
overwritten with values derived from the response before the check. -/
theorem C4_cryptogram_mismatch (crypto : Crypto) (s : SecureChannel) (bytes : List Nat)
    (t2 : Transport) (sid : Nat) (cc cg : List Nat) (kc : KeyChain) (dc : List Nat)
    (hS : s.securityLevel = SecurityLevelUnauthenticated)
    (hp : ParseResponse bytes = .ok (.createSession sid cc cg))
    (hupd : updateKeychain crypto (afterCreateSession s sid cc) = .ok kc)
    (hkdf : deriveKDF crypto (withKeyChain (afterCreateSession s sid cc) kc) kc.macKey
        DerivationConstantDeviceCryptogram CryptogramLength = .ok dc)
    (hne : dc ≠ cg) :
    Authenticate crypto s (Transport.ok bytes) t2
      = (.err "authentication failed: device sent wrong cryptogram",
         withKeyChain (afterCreateSession s sid cc) kc) ∧
    (Authenticate crypto s (Transport.ok bytes) t2).2.securityLevel
      = SecurityLevelUnauthenticated ∧
    (Authenticate crypto s (Transport.ok bytes) t2).2.counter = s.counter ∧
    (Authenticate crypto s (Transport.ok bytes) t2).2.hostChallenge = s.hostChallenge ∧
    (Authenticate crypto s (Transport.ok bytes) t2).2.authKey = s.authKey ∧
    (Authenticate crypto s (Transport.ok bytes) t2).2.macChainValue = s.macChainValue ∧
    (Authenticate crypto s (Transport.ok bytes) t2).2.id = sid ∧
    (Authenticate crypto s (Transport.ok bytes) t2).2.deviceChallenge = cc ∧
    (Authenticate crypto s (Transport.ok bytes) t2).2.keyChain = some kc := by
  have hmain : Authenticate crypto s (Transport.ok bytes) t2
      = (.err "authentication failed: device sent wrong cryptogram",
         withKeyChain (afterCreateSession s sid cc) kc) := by
    unfold Authenticate
    rw [if_neg (not_not_intro hS)]
    dsimp only [SendCommand]
    rw [hp]
    dsimp only
    rw [hupd]
    dsimp only
    rw [hkdf]
    dsimp only
    rw [if_pos hne]
  refine ⟨hmain, ?_, ?_, ?_, ?_, ?_, ?_, ?_, ?_⟩ <;> rw [hmain] <;>
    first
      | exact hS ▸ rfl
      | rfl

/-- C4, counterexample: with the concrete fake CREATE_SESSION reply whose
cryptogram is wrong, Authenticate errs as claimed but the channel is NOT
unchanged: session id, device challenge and keychain have all been
overwritten. -/
theorem C4_counterexample_channel_mutated :
    (Authenticate cryptoTriv chanUnauth (Transport.ok wireWrongCryptogram)
        (Transport.fail "unused")).1
      = .err "authentication failed: device sent wrong cryptogram" ∧
    (Authenticate cryptoTriv chanUnauth (Transport.ok wireWrongCryptogram)
        (Transport.fail "unused")).2.securityLevel = SecurityLevelUnauthenticated ∧
    (Authenticate cryptoTriv chanUnauth (Transport.ok wireWrongCryptogram)
        (Transport.fail "unused")).2.counter = 0 ∧
    chanUnauth.id = 0 ∧
    (Authenticate cryptoTriv chanUnauth (Transport.ok wireWrongCryptogram)
        (Transport.fail "unused")).2.id = 7 ∧
    chanUnauth.deviceChallenge = [] ∧
    (Authenticate cryptoTriv chanUnauth (Transport.ok wireWrongCryptogram)
        (Transport.fail "unused")).2.deviceChallenge = [21, 22, 23, 24, 25, 26, 27, 28] ∧
    chanUnauth.keyChain = none ∧
    (Authenticate cryptoTriv chanUnauth (Transport.ok wireWrongCryptogram)
        (Transport.fail "unused")).2.keyChain
      = some ⟨List.replicate 16 0, List.replicate 16 0, List.replicate 16 0⟩ := by
  decide

/-- C4 witness at the concrete fake reply. -/
theorem C4_cryptogram_mismatch_witness :
    Authenticate cryptoTriv chanUnauth (Transport.ok wireWrongCryptogram)
        (Transport.fail "unused")
      = (.err "authentication failed: device sent wrong cryptogram",
         withKeyChain (afterCreateSession chanUnauth 7 [21, 22, 23, 24, 25, 26, 27, 28])
           ⟨List.replicate 16 0, List.replicate 16 0, List.replicate 16 0⟩) :=
  (C4_cryptogram_mismatch cryptoTriv chanUnauth wireWrongCryptogram (Transport.fail "unused")
    7 [21, 22, 23, 24, 25, 26, 27, 28] [1, 1, 1, 1, 1, 1, 1, 1]
    ⟨List.replicate 16 0, List.replicate 16 0, List.replicate 16 0⟩ (List.replicate 8 0)
    (by decide) (by decide) (by decide) (by decide) (by decide)).1

/-- Closed form of the pool-replenishment loop: because the loop bound
int(poolSize)-len(sessions) is re-evaluated while len grows with i, the
loop performs only the ceiling of half the missing count. -/
theorem householdFill_eq (poolSize i len : Nat) :
    householdFill poolSize i len
      = if i + len < poolSize then len + (poolSize - i - len + 1) / 2 else len := by
  induction i, len using householdFill.induct poolSize with
  | case1 i l hlt ih =>
    have hlt2 : i + l < poolSize := by omega
    unfold householdFill
    rw [if_pos hlt, ih, if_pos hlt2]
    split
    next h2 => omega
    next h2 => omega
  | case2 i l hge =>
    have hge2 : ¬(i + l < poolSize) := by omega
    unfold householdFill
    rw [if_neg hge, if_neg hge2]

/-- C9 (amended): one housekeeping pass in which every channel creation
and authentication succeeds grows the pool from len0 to
len0 + (n - len0 + 1) / 2, reaching the configured size n only when at
most one channel was missing. -/
theorem C9_household_fill (n len0 : Nat) (h : len0 < n) :
    householdFill n 0 len0 = len0 + (n - len0 + 1) / 2 ∧
    (householdFill n 0 len0 = n ↔ n ≤ len0 + 1) := by
  have he := householdFill_eq n 0 len0
  rw [if_pos (by omega)] at he
  constructor
  · omega
  · omega

/-- C9, counterexample: with pool size 2 and an empty starting pool, a
single all-successful pass appends only one channel, not two. -/
theorem C9_counterexample_pool_two :
    householdFill 2 0 0 = 1 ∧ ¬(householdFill 2 0 0 = 2) := by
  have he := householdFill_eq 2 0 0
  norm_num at he
  omega

/-- C9 witness: pool size 4 from one existing channel yields three. -/
theorem C9_household_fill_witness :
    householdFill 4 0 1 = 1 + (4 - 1 + 1) / 2 ∧ (householdFill 4 0 1 = 4 ↔ 4 ≤ 1 + 1) :=
  C9_household_fill 4 1 (by norm_num)

/-- C10: whenever the echo exchange of the housekeeping probe returns a
value whose dynamic type is not EchoResponse, the probe dereferences the
nil result of the failed type assertion: the invalid-response-type branch
sets err but does not guard the following read of parsedResp.Data, so the
pass panics instead of retiring the channel. -/
theorem C10_household_nil_deref (crypto : Crypto) (session : SecureChannel) (t : Transport)
    (resp : Response)
    (hok : (SendEncryptedCommand crypto session (CreateEchoCommand echoPayload) t).1
      = .ok resp)
    (hne : ∀ d, resp ≠ .echo d) :
    (householdProbe crypto session t).1
      = .crash "invalid memory address or nil pointer dereference" := by
  unfold householdProbe
  split
  next m s1 hm =>
    rw [hm] at hok
    exact absurd hok (by simp)
  next s1 hm =>
    rw [hm] at hok
    exact absurd hok (by simp)
  next resp2 s1 hm =>
    rw [hm] at hok
    dsimp only at hok
    split
    next d =>
      exact absurd rfl
        (by injection hok with h; exact h ▸ hne d)
    next hneq =>
      rfl

/-- C10 witness: the concrete accepted reply whose decrypted inner frame
parses to the nil AUTHENTICATE_SESSION response makes the probe panic. -/
theorem C10_household_nil_deref_witness :
    (householdProbe cryptoTriv chanAuth (Transport.ok wireInnerNil)).1
      = .crash "invalid memory address or nil pointer dereference" :=
  C10_household_nil_deref cryptoTriv chanAuth (Transport.ok wireInnerNil) Response.nilResp
    (by decide) (fun d => by simp)

end YubiHsmGo
